import Mathlib

/-!
Verification of the NGX CRM usage analytics and alerting engine.

This file gives a shallow embedding of the analytics/alerting core of the
repository (the modules `app/services/analytics_engine.py`,
`app/services/intelligent_alerts.py` and the WebSocket connection manager in
`app/apis/agent_usage/__init__.py`) and proves or refutes the specification
claims about them.

Modelling conventions:
* timestamps are integers counting minutes (UTC);
* Python floats are modelled by exact rationals `ℚ`;
* SQL query results are modelled by explicit row lists; where SQL leaves the
  row order unspecified (a `GROUP BY` without `ORDER BY`) the grouping
  function below materialises groups in first-appearance order, which is one
  admissible database behaviour;
* Python dictionaries are modelled by insertion-ordered association lists.
-/

namespace NgxCrm

/-! ## WebSocket `ConnectionManager` (`app/apis/agent_usage/__init__.py`)

The Python `broadcast` method iterates over `self.active_connections` with a
plain `for` loop and calls `self.active_connections.remove(connection)` when a
send raises.  CPython list iteration works by index: after the element at
index `i` is yielded the iterator's index is already `i + 1`, so removing the
current element shifts the element that was at `i + 1` down to `i`, and the
iterator then skips it.  `ConnectionManager.broadcast` below is the direct
translation of that semantics for a registry of pairwise-distinct connections
(`list.remove` deletes the first equal element, which for distinct elements is
the current one).  A connection is modelled by an abstract identifier plus a
predicate `fails` saying whether `send_text` raises on it. -/

/-- Translation of `ConnectionManager.broadcast`: returns the pair
(connections that received the message, connection list after the loop).
When `fails c` holds, `c` is removed and the element right after it is
skipped (it stays registered but does not receive this message), exactly as
in the CPython iterate-and-remove loop. -/
def ConnectionManager.broadcast {α : Type} (fails : α → Bool) :
    List α → List α × List α
  | [] => ([], [])
  | c :: rest =>
    if fails c then
      match rest with
      | [] => ([], [])
      | d :: rest2 =>
        let r := ConnectionManager.broadcast fails rest2
        (r.1, d :: r.2)
    else
      let r := ConnectionManager.broadcast fails rest
      (c :: r.1, c :: r.2)

/-- Translation of `ConnectionManager.connect` (the registry part). -/
def ConnectionManager.connect {α : Type} (conns : List α) (ws : α) : List α :=
  conns ++ [ws]

/-- Translation of `ConnectionManager.disconnect`. -/
def ConnectionManager.disconnect {α : Type} [DecidableEq α]
    (conns : List α) (ws : α) : List α :=
  conns.erase ws

/-! ## `AnalyticsEngine` data model (`app/services/analytics_engine.py`)

`agent_usage_events` rows.  `timestamp` is minutes since the epoch, so the
SQL `EXTRACT(HOUR FROM timestamp)` is `timestamp / 60 % 24` and
`DATE(timestamp)` is `timestamp / 1440` (all row timestamps are taken
non-negative, as real UTC timestamps are). -/

/-- A row of the `agent_usage_events` table (the validated `AgentUsageEvent`
shape; the optional `contact_id`, `organization_id`, `context` fields are
carried by the table but never read by the analytics code, so they are not
modelled). -/
structure UsageEvent where
  user_id : String
  agent_id : String
  session_id : String
  tokens_used : Int
  response_time_ms : Int
  timestamp : Int
  subscription_tier : String
  deriving DecidableEq

/-- SQL `EXTRACT(HOUR FROM timestamp)` on a minute-granularity timestamp. -/
def eventHour (e : UsageEvent) : Int :=
  e.timestamp / 60 % 24

/-- SQL `DATE(timestamp)` on a minute-granularity timestamp. -/
def eventDate (e : UsageEvent) : Int :=
  e.timestamp / 1440

/-- The conjunctive `WHERE` clause of `calculate_usage_metrics`:
`timestamp BETWEEN $1 AND $2` (inclusive) plus the optional
`user_id = ...` and `subscription_tier = ...` filters. -/
def filterEvents (events : List UsageEvent) (start_date end_date : Int)
    (user_filter tier_filter : Option String) : List UsageEvent :=
  events.filter fun e =>
    decide (start_date ≤ e.timestamp) && decide (e.timestamp ≤ end_date) &&
      (match user_filter with | none => true | some u => e.user_id == u) &&
      (match tier_filter with | none => true | some t => e.subscription_tier == t)

/-- A row of the grouped main query of `calculate_usage_metrics`
(`GROUP BY agent_id, subscription_tier, EXTRACT(HOUR FROM timestamp)`). -/
structure MetricsRow where
  total_interactions : Nat
  total_tokens : Option Int
  unique_users : Nat
  unique_sessions : Nat
  avg_response_time : Option ℚ
  agent_id : String
  subscription_tier : String
  hour : Option Int
  deriving DecidableEq

/-- Distinct values of `l`, keeping first appearances in order. -/
def distinctList {α : Type} [DecidableEq α] (l : List α) : List α :=
  l.foldl (fun acc x => if x ∈ acc then acc else acc ++ [x]) []

/-- Rational mean of a list (0 on the empty list, matching the guarded call
sites, which never take the mean of an empty list). -/
def meanQ (l : List ℚ) : ℚ :=
  l.sum / l.length

/-- The grouping keys `(agent_id, subscription_tier, hour)` of the main
query, in first-appearance order.  SQL leaves the row order of a
`GROUP BY` without `ORDER BY` unspecified; first-appearance order is the
admissible database behaviour this model fixes. -/
def groupKeys (evs : List UsageEvent) : List (String × String × Int) :=
  distinctList (evs.map fun e => (e.agent_id, e.subscription_tier, eventHour e))

/-- The grouped result set of the main query of `calculate_usage_metrics`
over the (already filtered) events `evs`: one `MetricsRow` per
`(agent_id, subscription_tier, hour)` key. -/
def groupedUsageRows (evs : List UsageEvent) : List MetricsRow :=
  (groupKeys evs).map fun k =>
    let g := evs.filter fun e =>
      e.agent_id = k.1 ∧ e.subscription_tier = k.2.1 ∧ eventHour e = k.2.2
    { total_interactions := g.length
      total_tokens := some (g.map (·.tokens_used)).sum
      unique_users := (distinctList (g.map (·.user_id))).length
      unique_sessions := (distinctList (g.map (·.session_id))).length
      avg_response_time := some (meanQ (g.map fun e => (e.response_time_ms : ℚ)))
      agent_id := k.1
      subscription_tier := k.2.1
      hour := some k.2.2 }

/-! ### Breakdown maps (`calculate_usage_metrics`, the C5 portion)

The Python code builds `agent_breakdown` as a `defaultdict` whose entries
start as `{'interactions': 0, 'tokens': 0, 'users': set(), 'avg_response_time': 0}`
and, while looping over the grouped rows, adds only `total_interactions` and
`total_tokens` to each entry — nothing is ever added to the `users` set —
and finally replaces each `users` set by its size.  `tier_breakdown` is
built the same way (without the `avg_response_time` entry). -/

/-- In-progress `agent_breakdown` entry: the `defaultdict` initial value of
`calculate_usage_metrics`. -/
structure AgentAcc where
  interactions : Nat
  tokens : Int
  users : List String
  avg_response_time : ℚ
  deriving DecidableEq

/-- Finalised `agent_breakdown` entry (`users` replaced by `len(users)`). -/
structure AgentBd where
  interactions : Nat
  tokens : Int
  users : Nat
  avg_response_time : ℚ
  deriving DecidableEq

/-- One step of the `agent_breakdown` accumulation loop: bump
`interactions` and `tokens` of the row's agent entry (creating the
default entry on first sight).  As in the source, the `users` set is left
untouched. -/
def agentBreakdownStep (acc : List (String × AgentAcc)) (r : MetricsRow) :
    List (String × AgentAcc) :=
  if (acc.lookup r.agent_id).isSome then
    acc.map fun p =>
      if p.1 = r.agent_id then
        (p.1, { p.2 with
                  interactions := p.2.interactions + r.total_interactions
                  tokens := p.2.tokens + (r.total_tokens.getD 0) })
      else p
  else
    acc ++ [(r.agent_id,
      { interactions := r.total_interactions
        tokens := r.total_tokens.getD 0
        users := []
        avg_response_time := 0 })]

/-- The `agent_breakdown` map of `calculate_usage_metrics`: accumulate over
the grouped rows, then convert each (never-populated) `users` set to its
size. -/
def agent_breakdown (results : List MetricsRow) : List (String × AgentBd) :=
  (results.foldl agentBreakdownStep []).map fun p =>
    (p.1, { interactions := p.2.interactions
            tokens := p.2.tokens
            users := (distinctList p.2.users).length
            avg_response_time := p.2.avg_response_time })

/-- Finalised `tier_breakdown` entry. -/
structure TierBd where
  interactions : Nat
  tokens : Int
  users : Nat
  deriving DecidableEq

/-- One step of the `tier_breakdown` accumulation loop (same shape as the
agent one, minus `avg_response_time`; the `users` set is again never
populated, represented directly by its final size 0 at creation). -/
def tierBreakdownStep (acc : List (String × TierBd)) (r : MetricsRow) :
    List (String × TierBd) :=
  if (acc.lookup r.subscription_tier).isSome then
    acc.map fun p =>
      if p.1 = r.subscription_tier then
        (p.1, { p.2 with
                  interactions := p.2.interactions + r.total_interactions
                  tokens := p.2.tokens + (r.total_tokens.getD 0) })
      else p
  else
    acc ++ [(r.subscription_tier,
      { interactions := r.total_interactions
        tokens := r.total_tokens.getD 0
        users := 0 })]

/-- The `tier_breakdown` map of `calculate_usage_metrics`. -/
def tier_breakdown (results : List MetricsRow) : List (String × TierBd) :=
  results.foldl tierBreakdownStep []

/-- Specification-side quantity for C5: the number of distinct `user_id`s
among the filtered events attributed to agent `agent`. -/
def distinctUsersForAgent (evs : List UsageEvent) (agent : String) : Nat :=
  (distinctList ((evs.filter fun e => e.agent_id = agent).map (·.user_id))).length

/-! ### Peak hours (`calculate_usage_metrics`, the C6 portion)

`hour_usage` is a `defaultdict(int)` filled while looping over the grouped
rows (skipping rows whose `hour` is `NULL`); `peak_hours` then sorts its
keys by count, descending, with Python's stable sort, and keeps the first
three.  Dict keys iterate in insertion order, i.e. in first-appearance
order of the hours in the grouped result set. -/

/-- One step of the `hour_usage` accumulation: add the row's
`total_interactions` to its hour's counter (keys kept in insertion
order). -/
def hourUsageStep (acc : List (Int × Nat)) (r : MetricsRow) :
    List (Int × Nat) :=
  match r.hour with
  | none => acc
  | some h =>
    if (acc.lookup h).isSome then
      acc.map fun p => if p.1 = h then (p.1, p.2 + r.total_interactions) else p
    else
      acc ++ [(h, r.total_interactions)]

/-- The `hour_usage` dict of `calculate_usage_metrics`, as an
insertion-ordered association list hour ↦ summed interactions. -/
def hourUsage (results : List MetricsRow) : List (Int × Nat) :=
  results.foldl hourUsageStep []

/-- Descending-count order used by `sorted(..., key=lambda h: hour_usage[h],
reverse=True)`.  Python's sort is stable, and `reverse=True` keeps equal
elements in their original relative order, which is exactly the behaviour of
`List.insertionSort` with this total preorder. -/
def countDesc (a b : Int × Nat) : Prop := b.2 ≤ a.2

instance : DecidableRel countDesc := fun a b =>
  inferInstanceAs (Decidable (b.2 ≤ a.2))

instance : IsTotal (Int × Nat) countDesc :=
  ⟨fun a b => le_total b.2 a.2⟩

instance : IsTrans (Int × Nat) countDesc :=
  ⟨fun _ _ _ h1 h2 => le_trans h2 h1⟩

/-- The sorted `(hour, count)` pairs underlying `peak_hours`. -/
def peakPairs (results : List MetricsRow) : List (Int × Nat) :=
  ((hourUsage results).insertionSort countDesc).take 3

/-- The `peak_hours` field of `calculate_usage_metrics`: the first three
hours after the stable descending-by-count sort of the `hour_usage` keys. -/
def peak_hours (results : List MetricsRow) : List Int :=
  (peakPairs results).map Prod.fst

/-- Translation of `AnalyticsEngine._calculate_percentage_change`. -/
def calculate_percentage_change (old_value new_value : ℚ) : ℚ :=
  if old_value = 0 then
    if 0 < new_value then 100 else 0
  else
    (new_value - old_value) / old_value * 100

/-! ### Anomaly detector (`AnalyticsEngine.detect_usage_anomalies`)

The daily query groups events by `(DATE(timestamp), agent_id)`; the code
then regroups the rows per agent (`agent_data`, a `defaultdict(list)`, so
per-agent lists keep the row order) and, for agents with at least 3 days of
data, flags z-score outliers of the daily interaction and token series.
`statistics.stdev` is the *sample* standard deviation (denominator `n-1`).
The embedding avoids the square root by comparing squares: for a standard
deviation `s > 0`, `|v - m| / s > c ↔ (v - m)² > c² · s²`, and `s > 0 ↔
s² > 0`; variance `svarQ` below is the square of `statistics.stdev`. -/

/-- A row of the daily usage query of `detect_usage_anomalies`, already in
the per-agent dict shape (`date`, `interactions`, `tokens`, `users`). -/
structure DailyRow where
  usage_date : Int
  daily_interactions : Int
  daily_tokens : Int
  daily_users : Int
  agent_id : String
  deriving DecidableEq

/-- The `agent_data` regrouping of `detect_usage_anomalies`: rows grouped by
agent, agents in first-appearance order, rows of each agent in their
original order. -/
def agentGroups (rows : List DailyRow) : List (String × List DailyRow) :=
  (distinctList (rows.map (·.agent_id))).map fun a =>
    (a, rows.filter fun r => r.agent_id == a)

/-- Sample variance (the square of `statistics.stdev`): sum of squared
deviations from the mean divided by `n - 1`.  Only ever applied to lists of
length ≥ 3 (the code guards with `len(data) < 3` and `len(...) > 1`). -/
def svarQ (l : List ℚ) : ℚ :=
  (l.map fun x => (x - meanQ l) * (x - meanQ l)).sum / ((l.length : ℚ) - 1)

/-- A detected anomaly (the formatted `description` string of the source
carries no additional data and is not modelled). -/
structure Anomaly where
  type : String
  agent_id : String
  date : Int
  value : ℚ
  expected : ℚ
  severity : String
  deriving DecidableEq

/-- The daily-interactions anomaly check of `detect_usage_anomalies` for one
day: with `m`/`s2` the mean/sample variance of the agent's daily interaction
series, flag when the standard deviation is nonzero (`s2 > 0`) and the
z-score exceeds 2 (`(v-m)² > 4·s2`); severity is `high` when the z-score
exceeds 3 (`(v-m)² > 9·s2`), else `medium`; a `spike` when the value exceeds
the mean, else a `drop`. -/
def interactionAnomaly? (m s2 : ℚ) (d : DailyRow) : Option Anomaly :=
  let v : ℚ := (d.daily_interactions : ℚ)
  if 0 < s2 then
    if 4 * s2 < (v - m) * (v - m) then
      some { type := if m < v then "interaction_spike" else "interaction_drop"
             agent_id := d.agent_id
             date := d.usage_date
             value := v
             expected := m
             severity := if 9 * s2 < (v - m) * (v - m) then "high" else "medium" }
    else none
  else none

/-- The daily-tokens anomaly check of `detect_usage_anomalies` for one
day (same shape as the interaction check). -/
def tokenAnomaly? (m s2 : ℚ) (d : DailyRow) : Option Anomaly :=
  let v : ℚ := (d.daily_tokens : ℚ)
  if 0 < s2 then
    if 4 * s2 < (v - m) * (v - m) then
      some { type := if m < v then "token_spike" else "token_drop"
             agent_id := d.agent_id
             date := d.usage_date
             value := v
             expected := m
             severity := if 9 * s2 < (v - m) * (v - m) then "high" else "medium" }
    else none
  else none

/-- The anomalies appended for one day of one agent's series: the
interaction check, then the token check (the loop body appends in this
order). -/
def dayAnomalies (mi s2i mt s2t : ℚ) (d : DailyRow) : List Anomaly :=
  (interactionAnomaly? mi s2i d).toList ++ (tokenAnomaly? mt s2t d).toList

/-- The daily interaction series of an agent's rows, as rationals. -/
def interactionVals (g : List DailyRow) : List ℚ :=
  g.map fun d => (d.daily_interactions : ℚ)

/-- The daily token series of an agent's rows, as rationals. -/
def tokenVals (g : List DailyRow) : List ℚ :=
  g.map fun d => (d.daily_tokens : ℚ)

/-- The anomalies of one agent's rows: skipped entirely when fewer than 3
days of data exist (the `len(data) < 3: continue` guard; the inner
`len(interactions) > 1` check is then always true), otherwise every day is
checked against the series statistics. -/
def agentAnomalies (g : List DailyRow) : List Anomaly :=
  if g.length < 3 then []
  else
    g.flatMap
      (dayAnomalies (meanQ (interactionVals g)) (svarQ (interactionVals g))
        (meanQ (tokenVals g)) (svarQ (tokenVals g)))

/-- Translation of `AnalyticsEngine.detect_usage_anomalies`, from the daily
grouped rows of its query. -/
def detect_usage_anomalies (rows : List DailyRow) : List Anomaly :=
  (agentGroups rows).flatMap fun p => agentAnomalies p.2

/-! ### User insight scorer (`AnalyticsEngine.generate_user_insights`) -/

/-- The `tier_limits` monthly-token table (written out twice in the source,
in `generate_user_insights` and in `_check_usage_limits`, with identical
contents), with the `.get(tier, 50000)` fallback. -/
def tier_limits (tier : String) : ℚ :=
  if tier = "essential" then 50000
  else if tier = "pro" then 150000
  else if tier = "elite" then 500000
  else if tier = "prime" then 1000000
  else if tier = "longevity" then 1000000
  else 50000

/-- Result record of `generate_user_insights` (the `UserUsageInsight`
dataclass); `efficiency_metrics` is a name ↦ value map. -/
structure UserUsageInsight where
  user_id : String
  subscription_tier : String
  usage_score : ℚ
  risk_level : String
  recommendations : List String
  predicted_churn_probability : ℚ
  upgrade_opportunity : Bool
  efficiency_metrics : List (String × ℚ)
  deriving DecidableEq

/-- The single row `fetchrow` returns from the per-user usage query of
`generate_user_insights` (grouped by `subscription_tier`). -/
structure UserRowData where
  interactions : Nat
  tokens : ℚ
  avg_response_time : ℚ
  subscription_tier : String
  agents_used : Nat
  active_days : Nat
  first_usage : Int
  last_usage : Int
  deriving DecidableEq

/-- The per-user usage query of `generate_user_insights`
(`WHERE user_id = $1 AND timestamp >= $2 GROUP BY subscription_tier`,
consumed with `fetchrow`): `none` exactly when the user has no events
in-window; otherwise the aggregate of the first tier group, taking — as the
row order of the ungrouped `GROUP BY` is unspecified — the tier appearing
first among the user's filtered events. -/
def userRowFromEvents (events : List UsageEvent) (user_id : String)
    (start_date : Int) : Option UserRowData :=
  let evs := events.filter fun e =>
    e.user_id == user_id && decide (start_date ≤ e.timestamp)
  match evs with
  | [] => none
  | e0 :: _ =>
    let g := evs.filter fun e => e.subscription_tier == e0.subscription_tier
    some { interactions := g.length
           tokens := ((g.map (·.tokens_used)).sum : ℚ)
           avg_response_time := meanQ (g.map fun e => (e.response_time_ms : ℚ))
           subscription_tier := e0.subscription_tier
           agents_used := (distinctList (g.map (·.agent_id))).length
           active_days := (distinctList (g.map eventDate)).length
           first_usage := (g.map (·.timestamp)).foldl min e0.timestamp
           last_usage := (g.map (·.timestamp)).foldl max e0.timestamp }

/-- Translation of `AnalyticsEngine.generate_user_insights`.  `now` is the
query time (`datetime.now(timezone.utc)`, minutes); the trailing window is
30 days.  Formatted numeric fragments inside recommendation strings are not
modelled (the first recommendation keeps its static prefix). -/
def generate_user_insights (events : List UsageEvent) (user_id : String)
    (now : Int) : UserUsageInsight :=
  let start_date := now - 30 * 1440
  match userRowFromEvents events user_id start_date with
  | none =>
    { user_id := user_id
      subscription_tier := "unknown"
      usage_score := 0
      risk_level := "critical"
      recommendations := ["Re-engage user with personalized content"]
      predicted_churn_probability := 0.95
      upgrade_opportunity := false
      efficiency_metrics := [] }
  | some d =>
    let lim := tier_limits d.subscription_tier
    let usage_percentage := d.tokens / lim * 100
    let usage_score :=
      min 100 (usage_percentage * 0.4 +
        ((d.active_days : ℚ) / 30) * 100 * 0.3 +
        ((d.agents_used : ℚ) / 11) * 100 * 0.2 +
        min 100 (((d.interactions : ℚ) / 100) * 100) * 0.1)
    let risk_level :=
      if 80 ≤ usage_score then "low"
      else if 60 ≤ usage_score then "medium"
      else if 30 ≤ usage_score then "high"
      else "critical"
    let days_since_last := (now - d.last_usage) / 1440
    let churn_probability :=
      min 0.95 (max 0.05
        ((100 - usage_score) / 100 * 0.6 + ((days_since_last : ℚ) / 30) * 0.4))
    let recommendations :=
      (if 80 < usage_percentage then ["Consider upgrading to higher tier"] else []) ++
      (if d.agents_used < 3 then ["Explore more agents to maximize value"] else []) ++
      (if d.active_days < 15 then ["Increase engagement frequency"] else []) ++
      (if 2000 < d.avg_response_time then ["Optimize queries for better performance"] else [])
    let upgrade_opportunity :=
      decide (70 < usage_percentage) &&
        (d.subscription_tier == "essential" || d.subscription_tier == "pro") &&
        decide (20 < d.active_days)
    { user_id := user_id
      subscription_tier := d.subscription_tier
      usage_score := usage_score
      risk_level := risk_level
      recommendations := recommendations
      predicted_churn_probability := churn_probability
      upgrade_opportunity := upgrade_opportunity
      efficiency_metrics :=
        [("tokens_per_interaction", d.tokens / (max 1 (d.interactions : ℚ))),
         ("interactions_per_day", (d.interactions : ℚ) / (max 1 (d.active_days : ℚ))),
         ("agent_diversity", (d.agents_used : ℚ) / 11),
         ("engagement_consistency", (d.active_days : ℚ) / 30)] }

/-! ## `IntelligentAlertsService` (`app/services/intelligent_alerts.py`) -/

/-- The `AlertType` enum. -/
inductive AlertType where
  | usage_limit_approaching
  | usage_limit_exceeded
  | anomaly_detected
  | churn_risk
  | upgrade_opportunity
  | performance_degradation
  | suspicious_activity
  | agent_overload
  | user_inactive
  | rapid_usage_spike
  deriving DecidableEq

/-- The `.value` string of an `AlertType` member. -/
def AlertType.value : AlertType → String
  | .usage_limit_approaching => "usage_limit_approaching"
  | .usage_limit_exceeded => "usage_limit_exceeded"
  | .anomaly_detected => "anomaly_detected"
  | .churn_risk => "churn_risk"
  | .upgrade_opportunity => "upgrade_opportunity"
  | .performance_degradation => "performance_degradation"
  | .suspicious_activity => "suspicious_activity"
  | .agent_overload => "agent_overload"
  | .user_inactive => "user_inactive"
  | .rapid_usage_spike => "rapid_usage_spike"

/-- The `AlertSeverity` enum. -/
inductive AlertSeverity where
  | low
  | medium
  | high
  | critical
  deriving DecidableEq

/-- The `.value` string of an `AlertSeverity` member. -/
def AlertSeverity.value : AlertSeverity → String
  | .low => "low"
  | .medium => "medium"
  | .high => "high"
  | .critical => "critical"

/-- The `AlertChannel` enum. -/
inductive AlertChannel where
  | email
  | slack
  | webhook
  | dashboard
  | sms
  deriving DecidableEq

/-- The `AlertRule` dataclass.  The `conditions` dict is opaque
configuration that no code path of the service ever reads (the monitors
compare against the `thresholds` dict directly), and the unused
`created_at`/`updated_at` fields default to `None`; they are not
modelled. -/
structure AlertRule where
  id : String
  name : String
  alert_type : AlertType
  severity : AlertSeverity
  channels : List AlertChannel
  cooldown_minutes : Int := 60
  enabled : Bool := true
  deriving DecidableEq

/-- The `Alert` dataclass (the free-form `metadata` dict, which no claim
logic reads, is not modelled). -/
structure Alert where
  id : String
  rule_id : String
  alert_type : AlertType
  severity : AlertSeverity
  title : String
  message : String
  user_id : Option String
  agent_id : Option String
  triggered_at : Int
  resolved_at : Option Int := none
  acknowledged_at : Option Int := none
  acknowledged_by : Option String := none
  channels_sent : List AlertChannel := []
  auto_resolved : Bool := false
  deriving DecidableEq

/-- A row of the `usage_alerts` table.  `_save_alert_to_db` inserts
`(id, user_id, alert_type, message, threshold, current_value, triggered_at,
severity, metadata)` with `threshold = current_value = 0.0`; the
`acknowledged_*` and `resolved_at` columns start `NULL` and are set by the
`UPDATE`s of `acknowledge_alert` / `resolve_alert`. -/
structure DBAlertRow where
  id : String
  user_id : Option String
  alert_type : String
  message : String
  threshold : ℚ := 0
  current_value : ℚ := 0
  triggered_at : Int
  severity : String
  acknowledged_at : Option Int := none
  acknowledged_by : Option String := none
  resolved_at : Option Int := none
  deriving DecidableEq

/-- The mutable state of an `IntelligentAlertsService` instance together
with the `usage_alerts` table it persists to.  `alert_rules` and
`active_alerts` are dicts in Python; they are modelled as
insertion-ordered lists (`active_alerts` directly as the alert list, since
its keys are always the alerts' own ids).  `notification_queue` holds the
pending `(alert, rule.channels)` pairs. -/
structure AlertsState where
  alert_rules : List (String × AlertRule)
  active_alerts : List Alert
  alert_history : List Alert
  notification_queue : List (Alert × List AlertChannel)
  db_usage_alerts : List DBAlertRow
  deriving DecidableEq

/-- The rule registry built by `_initialize_default_rules`: six rules, in
insertion order.  Note that no rule with id `performance_degradation` is
registered. -/
def defaultAlertRules : List (String × AlertRule) :=
  [("usage_approaching",
    { id := "usage_approaching"
      name := "Límite de Uso Aproximándose"
      alert_type := .usage_limit_approaching
      severity := .medium
      channels := [.dashboard, .email]
      cooldown_minutes := 120 }),
   ("usage_exceeded",
    { id := "usage_exceeded"
      name := "Límite de Uso Excedido"
      alert_type := .usage_limit_exceeded
      severity := .critical
      channels := [.dashboard, .email, .slack]
      cooldown_minutes := 60 }),
   ("churn_risk",
    { id := "churn_risk"
      name := "Riesgo de Churn Detectado"
      alert_type := .churn_risk
      severity := .high
      channels := [.dashboard, .slack]
      cooldown_minutes := 1440 }),
   ("upgrade_opportunity",
    { id := "upgrade_opportunity"
      name := "Oportunidad de Upgrade"
      alert_type := .upgrade_opportunity
      severity := .low
      channels := [.dashboard]
      cooldown_minutes := 2880 }),
   ("anomaly",
    { id := "anomaly"
      name := "Anomalía en Uso Detectada"
      alert_type := .anomaly_detected
      severity := .medium
      channels := [.dashboard, .slack]
      cooldown_minutes := 180 }),
   ("user_inactive",
    { id := "user_inactive"
      name := "Usuario Inactivo"
      alert_type := .user_inactive
      severity := .medium
      channels := [.dashboard, .email]
      cooldown_minutes := 1440 })]

/-- A freshly constructed `IntelligentAlertsService` (with an empty
`usage_alerts` table). -/
def initialService : AlertsState :=
  { alert_rules := defaultAlertRules
    active_alerts := []
    alert_history := []
    notification_queue := []
    db_usage_alerts := [] }

/-- Python truthiness fallback `a or b` for an optional string: `None` and
the empty string fall through to `b`. -/
def pyOrStr (a : Option String) (b : String) : String :=
  match a with
  | none => b
  | some s => if s = "" then b else s

/-- The cooldown key of `_trigger_alert`:
`f"{rule_id}_{user_id or agent_id or 'global'}"`. -/
def alertKey (rule_id : String) (user_id agent_id : Option String) : String :=
  rule_id ++ "_" ++ pyOrStr user_id (pyOrStr agent_id "global")

/-- Translation of `_is_in_cooldown`: the query
`SELECT id FROM usage_alerts WHERE alert_type = $1 AND triggered_at > $2`
with `$1 = alert_key` and `$2 = now - cooldown_minutes` found a row. -/
def isInCooldown (db : List DBAlertRow) (alert_key : String)
    (cooldown_minutes : Int) (now : Int) : Bool :=
  db.any fun r =>
    r.alert_type == alert_key && decide (now - cooldown_minutes < r.triggered_at)

/-- Translation of `_save_alert_to_db`: insert a `usage_alerts` row whose
`alert_type` column receives `alert.alert_type.value` (the enum value
string) and whose `threshold`/`current_value` are the constants `0.0`. -/
def saveAlertToDb (db : List DBAlertRow) (alert : Alert) : List DBAlertRow :=
  db ++ [{ id := alert.id
           user_id := alert.user_id
           alert_type := alert.alert_type.value
           message := alert.message
           triggered_at := alert.triggered_at
           severity := alert.severity.value }]

/-- Translation of `_trigger_alert`, the single alert-creation entry point:
look the rule up (silently returning on a missing or disabled rule), check
the cooldown, then create the alert, record it in `active_alerts` and
`alert_history`, persist it, and enqueue it for notification.  `now` is
`datetime.now(timezone.utc)` and `new_id` the generated `uuid4` string. -/
def triggerAlert (s : AlertsState) (rule_id title message : String)
    (user_id agent_id : Option String) (now : Int) (new_id : String) :
    AlertsState :=
  match s.alert_rules.lookup rule_id with
  | none => s
  | some rule =>
    if !rule.enabled then s
    else
      let key := alertKey rule_id user_id agent_id
      if isInCooldown s.db_usage_alerts key rule.cooldown_minutes now then s
      else
        let alert : Alert :=
          { id := new_id
            rule_id := rule_id
            alert_type := rule.alert_type
            severity := rule.severity
            title := title
            message := message
            user_id := user_id
            agent_id := agent_id
            triggered_at := now
            channels_sent := [] }
        { s with
            active_alerts := s.active_alerts ++ [alert]
            alert_history := s.alert_history ++ [alert]
            db_usage_alerts := saveAlertToDb s.db_usage_alerts alert
            notification_queue := s.notification_queue ++ [(alert, rule.channels)] }

/-- Newest-first order on alerts, the key order of
`sorted(self.active_alerts.values(), key=lambda a: a.triggered_at,
reverse=True)`; Python's stable descending sort is `List.insertionSort`
with this total preorder. -/
def triggeredDesc (a b : Alert) : Prop := b.triggered_at ≤ a.triggered_at

instance : DecidableRel triggeredDesc := fun a b =>
  inferInstanceAs (Decidable (b.triggered_at ≤ a.triggered_at))

instance : IsTotal Alert triggeredDesc :=
  ⟨fun a b => le_total b.triggered_at a.triggered_at⟩

instance : IsTrans Alert triggeredDesc :=
  ⟨fun _ _ _ h1 h2 => le_trans h2 h1⟩

/-- Translation of `get_active_alerts`: the active alerts sorted by
`triggered_at` descending (stable), truncated to the first `limit`
(default 50).  `sorted` builds a fresh list, so the active set itself is
left untouched (the embedding is a pure function of the state). -/
def get_active_alerts (s : AlertsState) (limit : Nat := 50) : List Alert :=
  ((s.active_alerts.insertionSort triggeredDesc).take limit)

/-- Translation of `acknowledge_alert`: when the id is an active alert,
stamp `acknowledged_at`/`acknowledged_by` on it (and on its `usage_alerts`
row) and return `True`; otherwise return `False` without raising. -/
def acknowledge_alert (s : AlertsState) (alert_id acknowledged_by : String)
    (now : Int) : Bool × AlertsState :=
  if s.active_alerts.any fun a => a.id == alert_id then
    (true,
     { s with
         active_alerts := s.active_alerts.map fun a =>
           if a.id == alert_id then
             { a with acknowledged_at := some now,
                      acknowledged_by := some acknowledged_by }
           else a
         db_usage_alerts := s.db_usage_alerts.map fun r =>
           if r.id == alert_id then
             { r with acknowledged_at := some now,
                      acknowledged_by := some acknowledged_by }
           else r })
  else (false, s)

/-- Translation of `resolve_alert`: when the id is an active alert, stamp
`resolved_at` on it (and on its `usage_alerts` row) and return `True`;
otherwise return `False`.  The alert is *not* removed from
`active_alerts` here — only `_alert_cleanup` does that.  The `resolved_by`
argument is accepted and, as in the source, never used. -/
def resolve_alert (s : AlertsState) (alert_id resolved_by : String)
    (now : Int) : Bool × AlertsState :=
  if s.active_alerts.any fun a => a.id == alert_id then
    (true,
     { s with
         active_alerts := s.active_alerts.map fun a =>
           if a.id == alert_id then { a with resolved_at := some now } else a
         db_usage_alerts := s.db_usage_alerts.map fun r =>
           if r.id == alert_id then { r with resolved_at := some now } else r })
  else (false, s)

/-- One cycle of the `_alert_cleanup` loop body: drop in-memory history
entries older than 7 days and delete the resolved entries from the active
dict (deletion keeps the order of the remaining entries). -/
def alertCleanup (s : AlertsState) (now : Int) : AlertsState :=
  { s with
      alert_history := s.alert_history.filter fun a =>
        decide (now - 7 * 1440 < a.triggered_at)
      active_alerts := s.active_alerts.filter fun a => a.resolved_at == none }

/-! ### Monitor cycle bodies -/

/-- The fields of `AgentPerformanceMetrics` that
`_check_agent_performance` reads. -/
structure AgentPerfInput where
  avg_response_time : ℚ
  total_interactions : Nat
  success_rate : ℚ
  deriving DecidableEq

/-- The fixed agent roster of `_check_agent_performance`. -/
def performanceAgents : List String :=
  ["NEXUS", "BLAZE", "SAGE", "ARIA", "CIPHER", "ECHO"]

/-- One cycle of the performance monitor
(`_check_agent_performance`): for each roster agent whose 1-day analytics
(`performance`, supplied as input) show an average response time above the
5000 ms `response_time_degradation` threshold and more than 10
interactions, call `_trigger_alert` with `rule_id="performance_degradation"`.
Generated uuids are modelled by an indexed supply (`"p" ++ n`); message
text formatting is abbreviated. -/
def checkAgentPerformance (s : AlertsState)
    (performance : String → AgentPerfInput) (now : Int) : AlertsState :=
  (performanceAgents.foldl
    (fun (acc : AlertsState × Nat) agent_id =>
      let p := performance agent_id
      if 5000 < p.avg_response_time ∧ 10 < p.total_interactions then
        (triggerAlert acc.1 "performance_degradation"
          ("Degradación de Rendimiento - " ++ agent_id)
          ("Agente " ++ agent_id ++ " muestra tiempo de respuesta elevado")
          none (some agent_id) now ("p" ++ toString acc.2),
         acc.2 + 1)
      else acc)
    (s, 0)).1

/-- A row of the monthly usage query of `_check_usage_limits`
(`GROUP BY user_id, subscription_tier`). -/
structure UsageRow where
  user_id : String
  subscription_tier : String
  monthly_tokens : Option ℚ
  monthly_interactions : Nat
  active_days : Nat
  last_activity : Int
  deriving DecidableEq

/-- Which of the three usage-limit alerts a row triggers. -/
inductive UsageAlertKind where
  | approaching
  | exceeded
  | upgrade
  deriving DecidableEq

/-- The (monthly tokens / tier limit) ratio of a `_check_usage_limits` row,
with the `row['monthly_tokens'] or 0` null-coalescing and the
`tier_limits.get(tier, 50000)` fallback. -/
def usagePercentage (row : UsageRow) : ℚ :=
  (row.monthly_tokens.getD 0) / tier_limits row.subscription_tier

/-- The `if`/`elif`/`elif` classification of `_check_usage_limits`, in
source order: approaching (`usage_warning ≤ p < usage_critical`, i.e.
`0.8 ≤ p < 0.95`), else exceeded (`0.95 ≤ p`), else upgrade candidate
(`0.85 ≤ p`, tier `essential`/`pro`, `active_days ≥ 15`).  At most one
branch fires per row. -/
def classifyUsageRow (row : UsageRow) : Option UsageAlertKind :=
  let p := usagePercentage row
  if 0.8 ≤ p ∧ p < 0.95 then some .approaching
  else if 0.95 ≤ p then some .exceeded
  else if 0.85 ≤ p ∧
      (row.subscription_tier = "essential" ∨ row.subscription_tier = "pro") ∧
      15 ≤ row.active_days then some .upgrade
  else none

/-- The classification the specification describes for C4: the same three
conditions evaluated in the priority order exceeded, then approaching, then
upgrade candidate, with early exit once one matches. -/
def classifyUsageRowSpec (row : UsageRow) : Option UsageAlertKind :=
  let p := usagePercentage row
  if 0.95 ≤ p then some .exceeded
  else if 0.8 ≤ p ∧ p < 0.95 then some .approaching
  else if 0.85 ≤ p ∧
      (row.subscription_tier = "essential" ∨ row.subscription_tier = "pro") ∧
      15 ≤ row.active_days then some .upgrade
  else none

/-- The rule id `_check_usage_limits` triggers for each classification. -/
def usageRuleId : UsageAlertKind → String
  | .approaching => "usage_approaching"
  | .exceeded => "usage_exceeded"
  | .upgrade => "upgrade_opportunity"

/-- One cycle of the usage-limit monitor (`_check_usage_limits`) over the
monthly per-(user, tier) rows: trigger the classified rule, if any, for
each row (uuids from an indexed supply, message formatting abbreviated). -/
def checkUsageLimits (s : AlertsState) (rows : List UsageRow) (now : Int) :
    AlertsState :=
  (rows.foldl
    (fun (acc : AlertsState × Nat) row =>
      match classifyUsageRow row with
      | none => acc
      | some kind =>
        (triggerAlert acc.1 (usageRuleId kind)
          ("Alerta de uso - " ++ row.user_id)
          ("Usuario " ++ row.user_id)
          (some row.user_id) none now ("u" ++ toString acc.2),
         acc.2 + 1))
    (s, 0)).1

/-! ## Concrete inputs used by witnesses and counterexamples -/

/-- Event constructor shorthand for concrete examples. -/
def mkEvent (u a sess : String) (tok rt t : Int) (tier : String) : UsageEvent :=
  { user_id := u, agent_id := a, session_id := sess, tokens_used := tok,
    response_time_ms := rt, timestamp := t, subscription_tier := tier }

/-- C5 input: two in-window events of agent `NEXUS` from two distinct
users. -/
def exEventsC5 : List UsageEvent :=
  [mkEvent "u1" "NEXUS" "s1" 100 500 300 "pro",
   mkEvent "u2" "NEXUS" "s2" 20 600 330 "pro"]

/-- C6 input: one event of agent `ALPHA` at hour 5, then one of agent
`BETA` at hour 3, so the grouped rows carry hour 5 before hour 3 and both
hours have the same summed interaction count 1. -/
def exEventsC6 : List UsageEvent :=
  [mkEvent "u1" "ALPHA" "s1" 10 100 (5 * 60) "pro",
   mkEvent "u2" "BETA" "s2" 10 100 (3 * 60) "pro"]

/-- Daily-row constructor shorthand for agent `NEXUS`. -/
def mkDaily (d i t : Int) : DailyRow :=
  { usage_date := d, daily_interactions := i, daily_tokens := t,
    daily_users := 1, agent_id := "NEXUS" }

/-- C7 input from the specification example: daily interaction counts
`[10, 10, 10, 10, 100]` (constant daily tokens). -/
def exDailyC7 : List DailyRow :=
  [mkDaily 0 10 50, mkDaily 1 10 50, mkDaily 2 10 50, mkDaily 3 10 50,
   mkDaily 4 100 50]

/-- C7 input: a constant daily interaction sequence. -/
def exDailyC7const : List DailyRow :=
  [mkDaily 0 10 50, mkDaily 1 10 50, mkDaily 2 10 50, mkDaily 3 10 50]

/-- C7 input: nine days of 10 interactions then one day of 100, whose last
day has z-score `81/√810 ≈ 2.85`, between 2 and 3. -/
def exDailyC7spike : List DailyRow :=
  [mkDaily 0 10 50, mkDaily 1 10 50, mkDaily 2 10 50, mkDaily 3 10 50,
   mkDaily 4 10 50, mkDaily 5 10 50, mkDaily 6 10 50, mkDaily 7 10 50,
   mkDaily 8 10 50, mkDaily 9 100 50]

/-- A concrete active alert used by the C2 and C10 examples. -/
def exAlertA : Alert :=
  { id := "a1", rule_id := "usage_exceeded",
    alert_type := .usage_limit_exceeded, severity := .critical,
    title := "t", message := "m", user_id := some "u1", agent_id := none,
    triggered_at := 0 }

/-- A second concrete active alert, triggered later than `exAlertA`. -/
def exAlertB : Alert :=
  { id := "a2", rule_id := "usage_approaching",
    alert_type := .usage_limit_approaching, severity := .medium,
    title := "t2", message := "m2", user_id := some "u2", agent_id := none,
    triggered_at := 10 }

/-- C2 input: a service whose active set holds exactly `exAlertA`. -/
def exStateC2 : AlertsState :=
  { initialService with active_alerts := [exAlertA] }

/-- C10 input: a service whose active set holds `exAlertA` then
`exAlertB`. -/
def exStateC10 : AlertsState :=
  { initialService with active_alerts := [exAlertA, exAlertB] }

/-- C3 input: 1-day analytics showing agent `NEXUS` at 6000 ms average
response time over 20 interactions (above both thresholds). -/
def exPerfC3 : String → AgentPerfInput := fun a =>
  if a == "NEXUS" then
    { avg_response_time := 6000, total_interactions := 20, success_rate := 1 }
  else
    { avg_response_time := 0, total_interactions := 0, success_rate := 1 }

/-- C1 input, first trigger: rule `usage_exceeded` (cooldown 60 minutes)
for user `u1` at minute 0. -/
def exStateC1a : AlertsState :=
  triggerAlert initialService "usage_exceeded" "t" "m" (some "u1") none 0 "a1"

/-- C1 input, second trigger: the same rule and subject one minute later,
well inside the 60-minute cooldown. -/
def exStateC1b : AlertsState :=
  triggerAlert exStateC1a "usage_exceeded" "t" "m" (some "u1") none 1 "a2"

/-- C4 input: a `pro` row at 145000 of 150000 monthly tokens
(`p ≈ 0.967 ≥ 0.95`), active 20 days — all three branch conditions point at
a classification, so the priority order is exercised. -/
def exRowC4 : UsageRow :=
  { user_id := "u1", subscription_tier := "pro", monthly_tokens := some 145000,
    monthly_interactions := 40, active_days := 20, last_activity := 0 }

/-! ## Shared helper lemmas -/

/-- A prefix of a sorted list is sorted. -/
theorem sorted_take_of_sorted {α : Type} {r : α → α → Prop} {l : List α}
    (h : l.Sorted r) (k : Nat) : (l.take k).Sorted r :=
  List.Pairwise.sublist (List.take_sublist k l) h

/-- In a sorted list, every element of the length-`k` prefix is related to
every element of the corresponding suffix. -/
theorem sorted_take_drop_rel {α : Type} {r : α → α → Prop} {l : List α}
    (h : l.Sorted r) (k : Nat) :
    ∀ p ∈ l.take k, ∀ q ∈ l.drop k, r p q := by
  have h2 : (l.take k ++ l.drop k).Pairwise r := by
    rw [List.take_append_drop]
    exact h
  exact (List.pairwise_append.mp h2).2.2

/-- Membership in a truncated insertion sort implies membership in the
original list. -/
theorem mem_of_mem_take_insertionSort {α : Type} {r : α → α → Prop}
    [DecidableRel r] {l : List α} {k : Nat} {a : α}
    (h : a ∈ (l.insertionSort r).take k) : a ∈ l :=
  (List.perm_insertionSort r l).subset (List.take_subset k _ h)

/-! ## Claim theorems -/

/-- C1 (code bug): triggering rule `usage_exceeded` (cooldown 60 minutes)
for subject `u1` at minute 0 and again at minute 1 — well inside the
cooldown — creates and persists **two** alerts, not one.  The cooldown
check is inert: `_is_in_cooldown` compares the `usage_alerts.alert_type`
column against the key `"usage_exceeded_u1"`, but `_save_alert_to_db`
stores `alert.alert_type.value` (`"usage_limit_exceeded"`) in that column,
so the lookup never matches a saved row. -/
theorem cooldown_never_blocks_second_alert :
    isInCooldown exStateC1a.db_usage_alerts
        (alertKey "usage_exceeded" (some "u1") none) 60 1 = false ∧
    (exStateC1a.db_usage_alerts.map DBAlertRow.alert_type) =
        ["usage_limit_exceeded"] ∧
    alertKey "usage_exceeded" (some "u1") none = "usage_exceeded_u1" ∧
    exStateC1b.db_usage_alerts.length = 2 ∧
    exStateC1b.active_alerts.map Alert.id = ["a1", "a2"] :=
  ⟨by decide, by decide, by decide, by decide, by decide⟩

/-- C2 (counterexample): with the single alert `a1` active, `resolve_alert`
returns `True`, yet immediately afterwards `get_active_alerts` still lists
`a1` — `resolve_alert` only stamps `resolved_at` and leaves the alert in
the active dict until the hourly `_alert_cleanup` cycle removes it. -/
theorem resolved_alert_still_listed :
    (resolve_alert exStateC2 "a1" "ops" 5).1 = true ∧
    ((get_active_alerts (resolve_alert exStateC2 "a1" "ops" 5).2 50).map
        Alert.id) = ["a1"] :=
  ⟨by decide, by decide⟩

/-- C3 (code bug): a full performance-monitor cycle over analytics that
show roster agent `NEXUS` at 6000 ms average response time (> 5000) with
20 interactions (> 10) leaves the service state completely unchanged — no
alert is entered into the active set, persisted, or queued — because
`_check_agent_performance` triggers `rule_id="performance_degradation"`,
no rule with that id is ever registered, and `_trigger_alert` silently
returns on an unknown rule id. -/
theorem performance_rule_missing_no_alert :
    defaultAlertRules.lookup "performance_degradation" = none ∧
    checkAgentPerformance initialService exPerfC3 0 = initialService :=
  ⟨by decide, by decide⟩

/-- C5 (code bug): for two in-window events of agent `NEXUS` coming from
the two distinct users `u1` and `u2`, `calculate_usage_metrics` reports a
`users` sub-count of 0 for both the `NEXUS` agent-breakdown entry and the
`pro` tier-breakdown entry, while the number of distinct users among the
filtered events attributed to that agent is 2: the breakdown loops create
the per-entry `users` sets but never add anything to them (the grouped
query does not even select `user_id`), so every `users` sub-count is
`len(set()) = 0`. -/
theorem breakdown_users_always_zero :
    ((agent_breakdown (groupedUsageRows exEventsC5)).lookup "NEXUS").map
        AgentBd.users = some 0 ∧
    ((tier_breakdown (groupedUsageRows exEventsC5)).lookup "pro").map
        TierBd.users = some 0 ∧
    ((agent_breakdown (groupedUsageRows exEventsC5)).lookup "NEXUS").map
        AgentBd.interactions = some 2 ∧
    distinctUsersForAgent exEventsC5 "NEXUS" = 2 :=
  ⟨by decide, by decide, by decide, by decide⟩

/-- C6 (counterexample): with one event at hour 5 (agent `ALPHA`) grouped
before one event at hour 3 (agent `BETA`), both hours have the same summed
interaction count 1, yet `peak_hours` is `[5, 3]` — the stable descending
sort keeps tied hours in their first-appearance order in the grouped
result set (which is primarily grouped by agent, in an order SQL does not
fix), not in lower-hour-number-first order, which would give `[3, 5]`. -/
theorem peak_hours_tie_not_lower_hour_first :
    hourUsage (groupedUsageRows exEventsC6) = [(5, 1), (3, 1)] ∧
    peak_hours (groupedUsageRows exEventsC6) = [5, 3] :=
  ⟨by decide, by decide⟩

/-- C7 (counterexample): on the specification's own example — one agent
with daily interaction counts `[10, 10, 10, 10, 100]` (and constant daily
tokens) — `detect_usage_anomalies` flags nothing at all: the sample
standard deviation is `√1620 ≈ 40.25`, so the last day's z-score is
`72/√1620 = 4/√5 ≈ 1.789`, which does not exceed 2.  In particular the
last day is not flagged as an `interaction_spike`. -/
theorem anomaly_example_not_flagged :
    detect_usage_anomalies exDailyC7 = [] := by
  norm_num [detect_usage_anomalies, agentGroups, distinctList, exDailyC7,
    mkDaily, agentAnomalies, interactionVals, tokenVals, dayAnomalies,
    interactionAnomaly?, tokenAnomaly?, meanQ, svarQ, List.flatMap]

/-- C9 (code bug): during a single broadcast over the registry `[1, 2, 3]`
in which connection `2` raises on send, the failing connection is removed,
but connection `3` right after it is skipped by the mutated iteration: it
stays registered yet does **not** receive the message (only `1` does),
contradicting the claim that every other registered connection still
receives it.  A subsequent broadcast to the remaining registry `[1, 3]`
does reach both survivors. -/
theorem broadcast_skips_connection_after_failure :
    ConnectionManager.broadcast (fun c => c == 2) [1, 2, 3] = ([1], [1, 3]) ∧
    (3 ∈ ([1, 2, 3] : List Nat) ∧ ¬ (3 == 2) = true ∧
      3 ∉ (ConnectionManager.broadcast (fun c => c == 2) [1, 2, 3]).1) ∧
    ConnectionManager.broadcast (fun c => c == 2) [1, 3] = ([1, 3], [1, 3]) :=
  ⟨rfl, ⟨by decide, by decide, by decide⟩, rfl⟩

/-- C4: for every monthly (user, tier) row, the source's sequential
`if`/`elif`/`elif` classification of `_check_usage_limits` (approaching
first in program order) coincides with the specification's priority-ordered
classification (exceeded ≻ approaching ≻ upgrade-candidate with early
exit): the approaching condition (`0.8 ≤ p < 0.95`) and the exceeded
condition (`0.95 ≤ p`) are mutually exclusive, so swapping them preserves
the selection.  The `Option` result makes "at most one of the three alerts
per row" intrinsic. -/
theorem usage_limit_priority_order (row : UsageRow) :
    classifyUsageRow row = classifyUsageRowSpec row := by
  by_cases hA : (0.8 : ℚ) ≤ usagePercentage row ∧ usagePercentage row < 0.95
  · have hB : ¬ (0.95 : ℚ) ≤ usagePercentage row := not_le.mpr hA.2
    simp [classifyUsageRow, classifyUsageRowSpec, hA, hB]
  · by_cases hB : (0.95 : ℚ) ≤ usagePercentage row
    · simp [classifyUsageRow, classifyUsageRowSpec, hA, hB]
    · simp [classifyUsageRow, classifyUsageRowSpec, hA, hB]

/-- C4 witness: the priority coincidence evaluated on the concrete `pro`
row at 145000/150000 monthly tokens, where the code classifies the row as
`exceeded`. -/
theorem usage_limit_priority_order_witness :
    classifyUsageRow exRowC4 = classifyUsageRowSpec exRowC4 ∧
    classifyUsageRow exRowC4 = some .exceeded :=
  ⟨usage_limit_priority_order exRowC4, by
    have h1 : ¬ ("pro" : String) = "essential" := by decide
    norm_num [classifyUsageRow, usagePercentage, exRowC4, tier_limits, h1]⟩

/-- C10: `get_active_alerts` returns a list sorted newest-first by
`triggered_at` (`triggeredDesc` is the descending order), truncated to at
most `limit` entries (the Python default argument is 50), all of whose
elements come from the active set; the embedding is a pure function of the
state, reflecting that `sorted(...)` copies and the active dict is not
modified. -/
theorem get_active_alerts_sorted_truncated (s : AlertsState) (limit : Nat) :
    (get_active_alerts s limit).Sorted triggeredDesc ∧
    (get_active_alerts s limit).length ≤ limit ∧
    (∀ a ∈ get_active_alerts s limit, a ∈ s.active_alerts) := by
  refine ⟨?_, ?_, ?_⟩
  · exact sorted_take_of_sorted
      (List.sorted_insertionSort triggeredDesc s.active_alerts) limit
  · simpa [get_active_alerts] using List.length_take_le limit
      (s.active_alerts.insertionSort triggeredDesc)
  · intro a ha
    exact mem_of_mem_take_insertionSort ha

/-- C10 witness: the sortedness, truncation and membership statement
evaluated on a two-alert active set with `limit = 1` (and, separately, the
concrete newest-first output at the default limit 50). -/
theorem get_active_alerts_sorted_truncated_witness :
    ((get_active_alerts exStateC10 1).Sorted triggeredDesc ∧
      (get_active_alerts exStateC10 1).length ≤ 1 ∧
      (∀ a ∈ get_active_alerts exStateC10 1, a ∈ exStateC10.active_alerts)) ∧
    (get_active_alerts exStateC10 50).map Alert.id = ["a2", "a1"] :=
  ⟨get_active_alerts_sorted_truncated exStateC10 1, by decide⟩

/-- C6 (amended): `peak_hours` consists of the hours of the first three
pairs of the stably descending-by-count sorted `hour_usage` map: it is
sorted by summed interaction count descending, has at most 3 entries, every
selected `(hour, count)` pair occurs in `hour_usage`, and every selected
pair's count is at least every unselected pair's count — but ties are kept
in the hours' first-appearance order in the grouped query result (whose
order SQL does not fix), not broken by lower hour number first. -/
theorem peak_hours_top3_descending (results : List MetricsRow) :
    peak_hours results = (peakPairs results).map Prod.fst ∧
    (peakPairs results).Sorted countDesc ∧
    (peak_hours results).length ≤ 3 ∧
    (∀ p ∈ peakPairs results, p ∈ hourUsage results) ∧
    (∀ p ∈ peakPairs results,
      ∀ q ∈ ((hourUsage results).insertionSort countDesc).drop 3, q.2 ≤ p.2) := by
  refine ⟨rfl, ?_, ?_, ?_, ?_⟩
  · exact sorted_take_of_sorted (List.sorted_insertionSort countDesc _) 3
  · simpa [peak_hours, peakPairs] using
      List.length_take_le 3 ((hourUsage results).insertionSort countDesc)
  · intro p hp
    exact mem_of_mem_take_insertionSort hp
  · intro p hp q hq
    exact sorted_take_drop_rel (List.sorted_insertionSort countDesc _) 3 p hp q hq

/-- C6 witness: the amended peak-hours statement evaluated on the grouped
rows of the concrete tie example. -/
theorem peak_hours_top3_descending_witness :
    peak_hours (groupedUsageRows exEventsC6) =
        (peakPairs (groupedUsageRows exEventsC6)).map Prod.fst ∧
    (peakPairs (groupedUsageRows exEventsC6)).Sorted countDesc ∧
    (peak_hours (groupedUsageRows exEventsC6)).length ≤ 3 ∧
    (∀ p ∈ peakPairs (groupedUsageRows exEventsC6),
      p ∈ hourUsage (groupedUsageRows exEventsC6)) ∧
    (∀ p ∈ peakPairs (groupedUsageRows exEventsC6),
      ∀ q ∈ ((hourUsage (groupedUsageRows exEventsC6)).insertionSort
          countDesc).drop 3, q.2 ≤ p.2) :=
  peak_hours_top3_descending (groupedUsageRows exEventsC6)

/-- C2 (amended): for every alert id in the active set, `resolve_alert`
returns `True` and stamps `resolved_at` with the current time; the alert
disappears from `get_active_alerts` only after the next `_alert_cleanup`
cycle, which deletes resolved entries from the active set — not
immediately upon resolving. -/
theorem resolve_then_cleanup_removes (s : AlertsState)
    (alert_id actor : String) (now now2 : Int)
    (h : (s.active_alerts.any fun a => a.id == alert_id) = true) :
    (resolve_alert s alert_id actor now).1 = true ∧
    (∀ a ∈ (resolve_alert s alert_id actor now).2.active_alerts,
        a.id = alert_id → a.resolved_at = some now) ∧
    (∀ limit : Nat, ∀ a ∈ get_active_alerts
        (alertCleanup (resolve_alert s alert_id actor now).2 now2) limit,
      a.id ≠ alert_id) := by
  unfold resolve_alert
  rw [if_pos h]
  refine ⟨rfl, ?_, ?_⟩
  · intro a ha hid
    rw [List.mem_map] at ha
    obtain ⟨b, hb, hfb⟩ := ha
    by_cases hbid : b.id = alert_id
    · rw [← hfb]
      simp [hbid]
    · rw [← hfb] at hid
      simp [hbid] at hid
  · intro limit a ha hid
    have ha2 : a ∈ (alertCleanup
        { s with
            active_alerts := s.active_alerts.map fun a =>
              if a.id == alert_id then { a with resolved_at := some now } else a
            db_usage_alerts := s.db_usage_alerts.map fun r =>
              if r.id == alert_id then { r with resolved_at := some now } else r }
        now2).active_alerts :=
      mem_of_mem_take_insertionSort ha
    simp only [alertCleanup, List.mem_filter] at ha2
    obtain ⟨hmem, hres⟩ := ha2
    rw [List.mem_map] at hmem
    obtain ⟨b, hb, hfb⟩ := hmem
    by_cases hbid : b.id = alert_id
    · rw [← hfb] at hres
      simp [hbid] at hres
    · rw [← hfb] at hid
      simp [hbid] at hid

/-- C2 witness: the amended resolve-then-cleanup statement evaluated on a
service whose active set holds exactly the alert `a1`, resolved at minute 5
and cleaned up at minute 6. -/
theorem resolve_then_cleanup_removes_witness :
    ((exStateC2.active_alerts.any fun a => a.id == "a1") = true) ∧
    ((resolve_alert exStateC2 "a1" "ops" 5).1 = true ∧
      (∀ a ∈ (resolve_alert exStateC2 "a1" "ops" 5).2.active_alerts,
          a.id = "a1" → a.resolved_at = some 5) ∧
      (∀ limit : Nat, ∀ a ∈ get_active_alerts
          (alertCleanup (resolve_alert exStateC2 "a1" "ops" 5).2 6) limit,
        a.id ≠ "a1")) :=
  ⟨by decide, resolve_then_cleanup_removes exStateC2 "a1" "ops" 5 6 (by decide)⟩

/-- C8: a user with no usage events in the trailing 30-day window (the
per-user query returns no row) receives exactly the degenerate insight:
usage score 0, risk level `critical`, churn probability 0.95, the single
re-engagement recommendation, and no upgrade opportunity. -/
theorem no_events_degenerate_insight (events : List UsageEvent)
    (user_id : String) (now : Int)
    (h : events.filter (fun e =>
        e.user_id == user_id && decide (now - 30 * 1440 ≤ e.timestamp)) = []) :
    generate_user_insights events user_id now =
      { user_id := user_id
        subscription_tier := "unknown"
        usage_score := 0
        risk_level := "critical"
        recommendations := ["Re-engage user with personalized content"]
        predicted_churn_probability := 0.95
        upgrade_opportunity := false
        efficiency_metrics := [] } := by
  unfold generate_user_insights userRowFromEvents
  simp only [h]

/-- C8 witness: the degenerate insight computed for a user with an empty
event log. -/
theorem no_events_degenerate_insight_witness :
    (([] : List UsageEvent).filter (fun e =>
        e.user_id == "u9" && decide ((100000 : Int) - 30 * 1440 ≤ e.timestamp)) = []) ∧
    generate_user_insights [] "u9" 100000 =
      { user_id := "u9"
        subscription_tier := "unknown"
        usage_score := 0
        risk_level := "critical"
        recommendations := ["Re-engage user with personalized content"]
        predicted_churn_probability := 0.95
        upgrade_opportunity := false
        efficiency_metrics := [] } :=
  ⟨rfl, no_events_degenerate_insight [] "u9" 100000 rfl⟩

/-- Helper: membership in the per-day anomaly list is one of the two
per-metric checks succeeding. -/
theorem mem_dayAnomalies_iff (mi s2i mt s2t : ℚ) (d : DailyRow) (a : Anomaly) :
    a ∈ dayAnomalies mi s2i mt s2t d ↔
      interactionAnomaly? mi s2i d = some a ∨ tokenAnomaly? mt s2t d = some a := by
  simp [dayAnomalies, List.mem_append, Option.mem_toList, Option.mem_def]

/-- Helper: membership in an agent's anomaly list requires at least 3 days
of data and a day on which one of the per-metric checks fires against the
agent's series statistics. -/
theorem mem_agentAnomalies_iff (g : List DailyRow) (a : Anomaly) :
    a ∈ agentAnomalies g ↔
      3 ≤ g.length ∧ ∃ d ∈ g,
        (interactionAnomaly? (meanQ (interactionVals g))
            (svarQ (interactionVals g)) d = some a ∨
         tokenAnomaly? (meanQ (tokenVals g)) (svarQ (tokenVals g)) d = some a) := by
  unfold agentAnomalies
  by_cases h3 : g.length < 3
  · rw [if_pos h3]
    simp only [List.not_mem_nil, false_iff]
    rintro ⟨hlen, -⟩
    omega
  · rw [if_neg h3, List.mem_flatMap]
    constructor
    · rintro ⟨d, hd, hda⟩
      exact ⟨by omega, d, hd, (mem_dayAnomalies_iff _ _ _ _ d a).1 hda⟩
    · rintro ⟨-, d, hd, hda⟩
      exact ⟨d, hd, (mem_dayAnomalies_iff _ _ _ _ d a).2 hda⟩

/-- Helper: everything a successful interaction check says about the
produced anomaly — positive variance, squared z-score above 4 (z > 2),
field provenance, severity `high` exactly when the squared z-score exceeds
9 (z > 3), and type `interaction_spike` exactly when the value exceeds the
mean. -/
theorem interactionAnomaly_sound (m s2 : ℚ) (d : DailyRow) (a : Anomaly)
    (h : interactionAnomaly? m s2 d = some a) :
    0 < s2 ∧
    4 * s2 < ((d.daily_interactions : ℚ) - m) * ((d.daily_interactions : ℚ) - m) ∧
    a.agent_id = d.agent_id ∧ a.date = d.usage_date ∧
    a.value = (d.daily_interactions : ℚ) ∧ a.expected = m ∧
    (a.severity = "high" ↔
      9 * s2 < ((d.daily_interactions : ℚ) - m) * ((d.daily_interactions : ℚ) - m)) ∧
    (a.type = "interaction_spike" ↔ m < (d.daily_interactions : ℚ)) := by
  unfold interactionAnomaly? at h
  by_cases h1 : 0 < s2
  · rw [if_pos h1] at h
    by_cases h2 : 4 * s2 <
        ((d.daily_interactions : ℚ) - m) * ((d.daily_interactions : ℚ) - m)
    · rw [if_pos h2] at h
      injection h with h
      subst h
      refine ⟨h1, h2, rfl, rfl, rfl, rfl, ?_, ?_⟩
      · by_cases h3 : 9 * s2 <
            ((d.daily_interactions : ℚ) - m) * ((d.daily_interactions : ℚ) - m)
        · simp [h3]
        · simp [h3]
      · by_cases h4 : m < (d.daily_interactions : ℚ)
        · simp [h4]
        · simp [h4]
    · rw [if_neg h2] at h
      exact absurd h (by simp)
  · rw [if_neg h1] at h
    exact absurd h (by simp)

/-- Helper: the interaction check does fire whenever the variance is
positive and the squared z-score exceeds 4. -/
theorem interactionAnomaly_complete (m s2 : ℚ) (d : DailyRow) (h1 : 0 < s2)
    (h2 : 4 * s2 <
      ((d.daily_interactions : ℚ) - m) * ((d.daily_interactions : ℚ) - m)) :
    (interactionAnomaly? m s2 d).isSome = true := by
  unfold interactionAnomaly?
  rw [if_pos h1, if_pos h2]
  rfl

/-- Helper: the token-metric analogue of `interactionAnomaly_sound`. -/
theorem tokenAnomaly_sound (m s2 : ℚ) (d : DailyRow) (a : Anomaly)
    (h : tokenAnomaly? m s2 d = some a) :
    0 < s2 ∧
    4 * s2 < ((d.daily_tokens : ℚ) - m) * ((d.daily_tokens : ℚ) - m) ∧
    a.agent_id = d.agent_id ∧ a.date = d.usage_date ∧
    a.value = (d.daily_tokens : ℚ) ∧ a.expected = m ∧
    (a.severity = "high" ↔
      9 * s2 < ((d.daily_tokens : ℚ) - m) * ((d.daily_tokens : ℚ) - m)) ∧
    (a.type = "token_spike" ↔ m < (d.daily_tokens : ℚ)) := by
  unfold tokenAnomaly? at h
  by_cases h1 : 0 < s2
  · rw [if_pos h1] at h
    by_cases h2 : 4 * s2 <
        ((d.daily_tokens : ℚ) - m) * ((d.daily_tokens : ℚ) - m)
    · rw [if_pos h2] at h
      injection h with h
      subst h
      refine ⟨h1, h2, rfl, rfl, rfl, rfl, ?_, ?_⟩
      · by_cases h3 : 9 * s2 <
            ((d.daily_tokens : ℚ) - m) * ((d.daily_tokens : ℚ) - m)
        · simp [h3]
        · simp [h3]
      · by_cases h4 : m < (d.daily_tokens : ℚ)
        · simp [h4]
        · simp [h4]
    · rw [if_neg h2] at h
      exact absurd h (by simp)
  · rw [if_neg h1] at h
    exact absurd h (by simp)

/-- Helper: the token-metric analogue of `interactionAnomaly_complete`. -/
theorem tokenAnomaly_complete (m s2 : ℚ) (d : DailyRow) (h1 : 0 < s2)
    (h2 : 4 * s2 <
      ((d.daily_tokens : ℚ) - m) * ((d.daily_tokens : ℚ) - m)) :
    (tokenAnomaly? m s2 d).isSome = true := by
  unfold tokenAnomaly?
  rw [if_pos h1, if_pos h2]
  rfl

/-- C7 (amended): `detect_usage_anomalies` flags a (agent, day, metric)
triple exactly when the agent has at least 3 days of data, the sample
standard deviation of the metric's daily series is nonzero, and the
z-score exceeds 2 (stated square-free: variance `s2 > 0` and
`(v-m)² > 4·s2`); a flagged anomaly's severity is `high` iff its z-score
exceeds 3 and `medium` otherwise, and it is a spike iff the value exceeds
the mean.  A constant sequence yields no anomalies, and nine days of 10
interactions followed by 100 flags the last day as a medium
`interaction_spike` — but the claim's example `[10, 10, 10, 10, 100]`
flags nothing, since its largest z-score is `4/√5 ≈ 1.789 ≤ 2`. -/
theorem detect_anomalies_characterization :
    (∀ (rows : List DailyRow) (a : Anomaly),
        a ∈ detect_usage_anomalies rows ↔
          ∃ p ∈ agentGroups rows, 3 ≤ p.2.length ∧ ∃ d ∈ p.2,
            (interactionAnomaly? (meanQ (interactionVals p.2))
                (svarQ (interactionVals p.2)) d = some a ∨
             tokenAnomaly? (meanQ (tokenVals p.2))
                (svarQ (tokenVals p.2)) d = some a)) ∧
    (∀ (m s2 : ℚ) (d : DailyRow) (a : Anomaly),
        interactionAnomaly? m s2 d = some a →
          0 < s2 ∧
          4 * s2 <
            ((d.daily_interactions : ℚ) - m) * ((d.daily_interactions : ℚ) - m) ∧
          a.agent_id = d.agent_id ∧ a.date = d.usage_date ∧
          a.value = (d.daily_interactions : ℚ) ∧ a.expected = m ∧
          (a.severity = "high" ↔
            9 * s2 <
              ((d.daily_interactions : ℚ) - m) * ((d.daily_interactions : ℚ) - m)) ∧
          (a.type = "interaction_spike" ↔ m < (d.daily_interactions : ℚ))) ∧
    (∀ (m s2 : ℚ) (d : DailyRow),
        0 < s2 →
        4 * s2 <
          ((d.daily_interactions : ℚ) - m) * ((d.daily_interactions : ℚ) - m) →
        (interactionAnomaly? m s2 d).isSome = true) ∧
    (∀ (m s2 : ℚ) (d : DailyRow) (a : Anomaly),
        tokenAnomaly? m s2 d = some a →
          0 < s2 ∧
          4 * s2 < ((d.daily_tokens : ℚ) - m) * ((d.daily_tokens : ℚ) - m) ∧
          a.agent_id = d.agent_id ∧ a.date = d.usage_date ∧
          a.value = (d.daily_tokens : ℚ) ∧ a.expected = m ∧
          (a.severity = "high" ↔
            9 * s2 < ((d.daily_tokens : ℚ) - m) * ((d.daily_tokens : ℚ) - m)) ∧
          (a.type = "token_spike" ↔ m < (d.daily_tokens : ℚ))) ∧
    (∀ (m s2 : ℚ) (d : DailyRow),
        0 < s2 →
        4 * s2 < ((d.daily_tokens : ℚ) - m) * ((d.daily_tokens : ℚ) - m) →
        (tokenAnomaly? m s2 d).isSome = true) ∧
    detect_usage_anomalies exDailyC7const = [] ∧
    detect_usage_anomalies exDailyC7spike =
      [{ type := "interaction_spike", agent_id := "NEXUS", date := 9,
         value := 100, expected := 19, severity := "medium" }] := by
  refine ⟨?_, interactionAnomaly_sound, interactionAnomaly_complete,
    tokenAnomaly_sound, tokenAnomaly_complete, ?_, ?_⟩
  · intro rows a
    simp only [detect_usage_anomalies, List.mem_flatMap]
    exact exists_congr fun p => and_congr_right fun _ =>
      mem_agentAnomalies_iff p.2 a
  · norm_num [detect_usage_anomalies, agentGroups, distinctList, exDailyC7const,
      mkDaily, agentAnomalies, interactionVals, tokenVals, dayAnomalies,
      interactionAnomaly?, tokenAnomaly?, meanQ, svarQ, List.flatMap]
  · norm_num [detect_usage_anomalies, agentGroups, distinctList, exDailyC7spike,
      mkDaily, agentAnomalies, interactionVals, tokenVals, dayAnomalies,
      interactionAnomaly?, tokenAnomaly?, meanQ, svarQ, List.flatMap]

end NgxCrm
